import Mathlib

/-!
Verification development for the room-chat / quiz client of this repository.

The definitions below are shallow embeddings of the client-side TypeScript
source, chiefly the `useRoomSocket` hook (the revision with
`maxReconnectAttempts = 5` and `baseReconnectDelay = 2000`, which is also the
revision embedded at the end of `client/src/hooks/useRoomApi.ts`), the
`RoomProvider` directory-feed handler in `client/src/contexts/RoomContext.tsx`,
and `updateGameStateFromWebSocket` from the game-API hook.  JavaScript objects
are modelled as Lean structures; fields that may be `undefined` become
`Option`; the mutable refs of the hook become fields of an explicit state
record, and the hook's callbacks become functions on that record, driven by an
event type, as the design notes of the specification suggest.
-/

/-- A chat message as the client stores it (`MessageResponse`).  The `id`
field is `Option Nat` because the legacy fallback branch of `ws.onmessage`
can insert a parsed JSON object that has no `id` field at all (JavaScript
`undefined`); a real server message always has `id = some n`.  Only the
fields the embedded operations read are carried. -/
structure Msg where
  id : Option Nat
  content : Option String
deriving DecidableEq, Repr

/-- The de-duplicating insert shared by `ws.onmessage` and `sendMessage`:
`const exists = messagesRef.current.find((m) => m.id === payload.id);
 if (!exists) { next = [...messagesRef.current, payload]; ... }`. -/
def insertMsg (msgs : List Msg) (payload : Msg) : List Msg :=
  if msgs.any (fun m => m.id == payload.id) then msgs else msgs ++ [payload]

/-- `l.find((m) => m.id === i)` — first entry with the given identifier. -/
def findById (l : List Msg) (i : Option Nat) : Option Msg :=
  l.find? (fun m => m.id == i)

/-- `l.some((m) => m.id === i)` — is the identifier already present? -/
def hasId (l : List Msg) (i : Option Nat) : Bool :=
  l.any (fun m => m.id == i)

/-- Every key (image under `key`) occurs at most once in the list. -/
def uniqueKeys {α β : Type} (key : α → β) [BEq β] : List α → Bool
  | [] => true
  | x :: rest => !(rest.any (fun y => key y == key x)) && uniqueKeys key rest

/-- Success continuation of `fetchMessages`: the fetched history snapshot
REPLACES the local collection (`const ordered = data.reverse();
setMessages(ordered); messagesRef.current = ordered;`) — it is not merged
item by item. -/
def fetchMessagesOk (_prev : List Msg) (data : List Msg) : List Msg :=
  data.reverse

/-- The parsed JSON object delivered to `ws.onmessage`, restricted to the
fields the handler reads: the `type` discriminator, the `message` envelope
field (for `type === "message"`), and the object's own `id`/`content` fields,
which the legacy fallback branch reads when it casts the whole object to a
`Message`. -/
structure RawData where
  type : String
  message : Option Msg := none
  id : Option Nat := none
  content : Option String := none
deriving DecidableEq, Repr

/-- The `ws.onmessage` handler of `useRoomSocket` (part_008 revision).
Returns the new message collection and whether the event was dispatched to
the game-event handler (`onGameEventRef.current`).  The source:
`pong` is ignored; a `type` starting with `"game_"` and the `room_updated`
type go to the handler; `message` inserts `data.message`; anything else is
the backward-compatibility branch inserting `data` itself as a message.
When `data.message` is absent on a `"message"` event, reading `payload.id`
throws and the surrounding `try/catch` leaves the state unchanged. -/
def wsOnMessage (msgs : List Msg) (d : RawData) : List Msg × Bool :=
  if d.type = "pong" then (msgs, false)
  else if d.type ≠ "" ∧ d.type.startsWith "game_" then (msgs, true)
  else if d.type = "room_updated" then (msgs, true)
  else if d.type = "message" then
    match d.message with
    | some payload => (insertMsg msgs payload, false)
    | none => (msgs, false)
  else (insertMsg msgs { id := d.id, content := d.content }, false)

/-- JavaScript `String.prototype.trim`: strip leading and trailing
whitespace.  Modelled on the character list so that it is
kernel-computable. -/
def trimString (s : String) : String :=
  ⟨((s.data.dropWhile Char.isWhitespace).reverse.dropWhile Char.isWhitespace).reverse⟩

/-- `sendMessage` of `useRoomSocket`, as a function of the HTTP outcome:
`if (!roomId || !content.trim()) return null;` then on a non-ok response or
network error `return null` with the collection untouched; on success the
returned message is inserted through the same id-keyed insert. -/
def sendMessage (roomId : Option String) (msgs : List Msg) (content : String)
    (resp : Except Unit Msg) : Option Msg × List Msg :=
  if roomId = none ∨ trimString content = "" then (none, msgs)
  else
    match resp with
    | .error _ => (none, msgs)
    | .ok sent => (some sent, insertMsg msgs sent)

/-! ## Connection lifecycle of `useRoomSocket`

The hook's mutable refs (`wsRef`, `reconnectAttemptsRef`,
`reconnectTimeoutRef`, `heartbeatIntervalRef`, `wsUrlIndexRef`,
`messagesRef`) and its `connected` state become one explicit record; the
callbacks (`scheduleReconnect`, `connectWebSocket`, `ws.onopen`,
`ws.onclose`, the reconnect timer body, the heartbeat interval body, the
mount/unmount effects) become functions on it.  The hook instance is bound
to one non-empty `roomId`.  Auxiliary counters (`fetchCount`, `openCount`,
`pingsSent`, `othersLive`) record observable effects: how many times
`fetchMessages` was invoked, how many times `ws.onopen` fired, how many
heartbeat pings were sent, and how many WebSocket objects no longer held by
`wsRef` are still in the `CONNECTING`/`open` state. -/

/-- `WebSocket.readyState` values. -/
inductive ReadyState where
  | CONNECTING
  | OPEN
  | CLOSING
  | CLOSED
deriving DecidableEq, Repr

/-- `const maxReconnectAttempts = 5;` -/
def maxReconnectAttempts : Nat := 5

/-- `const baseReconnectDelay = 2000;` (milliseconds) -/
def baseReconnectDelay : Nat := 2000

/-- The heartbeat `setInterval` period: `30000` ms. -/
def heartbeatIntervalMs : Nat := 30000

/-- The client state of one `useRoomSocket` instance. -/
structure SocketState where
  /-- `wsRef.current`: `none` models `null`, otherwise the readyState of the
  held socket. -/
  ws : Option ReadyState
  connected : Bool
  reconnectAttempts : Nat
  /-- the pending `scheduleReconnect` timer, with its delay in ms -/
  reconnectTimeout : Option Nat
  /-- whether the heartbeat interval is running -/
  heartbeatOn : Bool
  wsUrlIndex : Nat
  messages : List Msg
  /-- invocations of `fetchMessages` -/
  fetchCount : Nat
  /-- `fetchMessages` calls whose response has not arrived yet -/
  fetchesInFlight : Nat
  /-- how many times `ws.onopen` has fired -/
  openCount : Nat
  /-- heartbeat pings sent -/
  pingsSent : Nat
  /-- sockets that were dropped from `wsRef` while still connecting/open -/
  othersLive : Nat
deriving DecidableEq, Repr

/-- The guard used by both `scheduleReconnect` and `connectWebSocket`:
`wsRef.current && (readyState === OPEN || readyState === CONNECTING)`. -/
def wsOpenOrConnecting (s : SocketState) : Bool :=
  match s.ws with
  | some .OPEN => true
  | some .CONNECTING => true
  | _ => false

/-- `Math.min(baseReconnectDelay * Math.pow(2, reconnectAttemptsRef.current), 30000)` -/
def reconnectDelay (attempts : Nat) : Nat :=
  min (baseReconnectDelay * 2 ^ attempts) 30000

/-- `scheduleReconnect`: do nothing while a socket is open or connecting;
otherwise clear any pending timer; give up (surfacing `connected = false`)
once the attempt budget is spent; else arm the backoff timer. -/
def scheduleReconnect (s : SocketState) : SocketState :=
  if wsOpenOrConnecting s then s
  else if maxReconnectAttempts ≤ s.reconnectAttempts then
    { s with connected := false, reconnectTimeout := none }
  else
    { s with reconnectTimeout := some (reconnectDelay s.reconnectAttempts) }

/-- `connectWebSocket`: suppressed while the held socket is open or
connecting; otherwise a new socket is created in the connecting state.  If
the overwritten socket were still live it would become an orphan, which the
bookkeeping field records (the guard makes the increment zero). -/
def connectWebSocket (s : SocketState) : SocketState :=
  if wsOpenOrConnecting s then s
  else
    { s with
      ws := some .CONNECTING
      othersLive := s.othersLive + (if wsOpenOrConnecting s then 1 else 0) }

/-- `ws.onopen`: mark connected, reset the attempt counter, start the
heartbeat (the 1 s start delay is immaterial to the modelled claims). -/
def onOpen (s : SocketState) : SocketState :=
  { s with
    ws := some .OPEN
    connected := true
    reconnectAttempts := 0
    heartbeatOn := true
    openCount := s.openCount + 1 }

/-- `ws.onclose` for the socket currently held by `wsRef` (close events of
older sockets are ignored by the `wsRef.current !== ws` guard): drop the
socket, stop the heartbeat, and for a close code other than 1000 and 1001
promote the fallback URL after two failed attempts and schedule a
reconnect. -/
def onClose (code : Nat) (s : SocketState) : SocketState :=
  let s1 := { s with connected := false, heartbeatOn := false, ws := none }
  if code ≠ 1000 ∧ code ≠ 1001 then
    let s2 :=
      if 2 ≤ s1.reconnectAttempts then
        { s1 with wsUrlIndex := min (s1.wsUrlIndex + 1) 1 }
      else s1
    scheduleReconnect s2
  else s1

/-- Body of the reconnect timer:
`reconnectAttemptsRef.current++; connectWebSocketRef.current?.();`. -/
def reconnectTimerFire (s : SocketState) : SocketState :=
  match s.reconnectTimeout with
  | none => s
  | some _ =>
    connectWebSocket
      { s with
        reconnectTimeout := none
        reconnectAttempts := s.reconnectAttempts + 1 }

/-- The 5 s connection timeout: if the socket is still connecting, close it
and schedule a reconnect. -/
def connectionTimeoutFire (s : SocketState) : SocketState :=
  if s.ws = some .CONNECTING then
    scheduleReconnect { s with ws := some .CLOSING }
  else s

/-- Body of the heartbeat interval: while the held socket is open a ping is
sent; otherwise the interval stops itself. -/
def heartbeatTick (s : SocketState) : SocketState :=
  if s.heartbeatOn then
    if s.ws = some .OPEN then { s with pingsSent := s.pingsSent + 1 }
    else { s with heartbeatOn := false }
  else s

/-- The unmount cleanup: clear the reconnect timer, stop the heartbeat,
close the held socket with code 1000 ("Component unmounting") and null the
ref, so the eventual close event is ignored by the staleness guard. -/
def unmountCleanup (s : SocketState) : SocketState :=
  { s with
    reconnectTimeout := none
    heartbeatOn := false
    ws := none
    connected := false }

/-- External stimuli driving one hook instance. -/
inductive Ev where
  /-- the mount effects: start `fetchMessages`, clean up any held socket,
  then `connectWebSocket` -/
  | mount
  /-- a started `fetchMessages` resolves with an ok history snapshot -/
  | fetchReply (snapshot : List Msg)
  /-- `ws.onopen` of the held connecting socket -/
  | wsOpen
  /-- `ws.onclose` of the held socket, with its close code -/
  | wsClose (code : Nat)
  /-- `ws.onmessage` of the held open socket -/
  | wsMsg (d : RawData)
  /-- the pending reconnect timer fires -/
  | reconnectFire
  /-- the 5 s connection timeout fires -/
  | connTimeoutFire
  /-- the heartbeat interval fires -/
  | heartbeatFire
  /-- the unmount cleanup runs -/
  | unmount
  /-- an orphaned socket leaves the connecting/open state -/
  | otherSocketClosed
deriving DecidableEq, Repr

/-- One step of the hook: dispatch an external event, applying the staleness
and readyState guards of the source. -/
def step (s : SocketState) (e : Ev) : SocketState :=
  match e with
  | .mount =>
    connectWebSocket
      { s with
        ws := none
        heartbeatOn := false
        fetchCount := s.fetchCount + 1
        fetchesInFlight := s.fetchesInFlight + 1 }
  | .fetchReply snapshot =>
    if s.fetchesInFlight = 0 then s
    else
      { s with
        messages := fetchMessagesOk s.messages snapshot
        fetchesInFlight := s.fetchesInFlight - 1 }
  | .wsOpen => if s.ws = some .CONNECTING then onOpen s else s
  | .wsClose code => if s.ws = none then s else onClose code s
  | .wsMsg d =>
    if s.ws = some .OPEN then { s with messages := (wsOnMessage s.messages d).1 }
    else s
  | .reconnectFire => reconnectTimerFire s
  | .connTimeoutFire => connectionTimeoutFire s
  | .heartbeatFire => heartbeatTick s
  | .unmount => unmountCleanup s
  | .otherSocketClosed => { s with othersLive := s.othersLive - 1 }

/-- The freshly created hook state. -/
def initialState : SocketState :=
  { ws := none
    connected := false
    reconnectAttempts := 0
    reconnectTimeout := none
    heartbeatOn := false
    wsUrlIndex := 0
    messages := []
    fetchCount := 0
    fetchesInFlight := 0
    openCount := 0
    pingsSent := 0
    othersLive := 0 }

/-- Run a sequence of events from the fresh state. -/
def run (evs : List Ev) : SocketState :=
  evs.foldl step initialState

/-- Event Channels of this client that are in the connecting or open state:
the one held by `wsRef` (if live) plus any live orphans. -/
def liveChannelCount (s : SocketState) : Nat :=
  s.othersLive + (if wsOpenOrConnecting s then 1 else 0)

/-! ## Room directory feed (`RoomContext.tsx`) -/

/-- `Room.visibility`: `"public" | "passcode"`. -/
inductive Visibility where
  | public
  | passcode
deriving DecidableEq, Repr

/-- A directory entry (`Room` in `client/src/types/room.ts`). -/
structure Room where
  id : String
  title : String
  visibility : Visibility
  capacity : Nat
  member_count : Nat
deriving DecidableEq, Repr

/-- A `RoomsEvent` of `useRoomsSocket`. -/
inductive RoomsEvent where
  | room_created (room : Room)
  | room_updated (id : String) (member_count : Nat)
  | room_deleted (room_id : String)
deriving DecidableEq, Repr

/-- The `useRoomsSocket` callback installed by `RoomProvider`
(`client/src/contexts/RoomContext.tsx`, the revision with the duplicate
check): `room_created` prepends unless the id is already present;
`room_updated` rewrites the member count of the matching entry;
`room_deleted` filters out the id. -/
def handleRoomsEvent (rooms : List Room) (ev : RoomsEvent) : List Room :=
  match ev with
  | .room_created room =>
    if room.visibility = .public ∨ room.visibility = .passcode then
      if rooms.any (fun r => r.id == room.id) then rooms else room :: rooms
    else rooms
  | .room_updated i mc =>
    rooms.map (fun r => if r.id = i then { r with member_count := mc } else r)
  | .room_deleted i => rooms.filter (fun r => r.id != i)

/-! ## Game state updates (`updateGameStateFromWebSocket`) -/

/-- `GameStatus.status` values. -/
inductive GStatus where
  | generating
  | ready
  | playing
  | waiting_next
  | finished
deriving DecidableEq, Repr

/-- The `GameStatus` snapshot carried by `game_status_update`
(fields the client update function reads, plus identifiers). -/
structure GameStatus where
  game_id : String
  status : GStatus
  current_question_index : Nat
  total_questions : Nat
deriving DecidableEq, Repr

/-- A quiz `Question` (answer withheld). -/
structure Question where
  id : String
  question : String
  hint : Option String
deriving DecidableEq, Repr

/-- The wire `GameEvent`s the client update function dispatches on; payload
fields that may be `undefined` are `Option`s. -/
inductive GameEvent where
  | game_status_update (gameStatus : Option GameStatus)
  | game_question (question : Option Question)
  | game_hint
  | game_timer (timeRemaining : Option Nat)
  | game_grading_result
  | game_grading_result_restore
  | game_ranking
deriving DecidableEq, Repr

/-- The client's `GameState`. -/
structure GameState where
  gameStatus : Option GameStatus
  currentQuestion : Option Question
  timeRemaining : Nat
  showHint : Bool
  error : Option String
deriving DecidableEq, Repr

/-- `updateGameStateFromWebSocket` (the revision at the end of part_007):
`game_status_update` installs the snapshot, resetting the displayed timer to
20 when the game just finished; `game_question` installs the question and
resets the countdown to the fixed 20 s budget; `game_hint` reveals the hint;
`game_timer` installs `data.timeRemaining || 0`; the grading and ranking
events are forwarded to callbacks and leave the state unchanged. -/
def updateGameStateFromWebSocket (data : GameEvent) (prev : GameState) : GameState :=
  match data with
  | .game_status_update gs =>
    let timeRemaining :=
      if gs.any (fun g => g.status == .finished) then 20 else prev.timeRemaining
    { prev with gameStatus := gs, timeRemaining := timeRemaining, error := none }
  | .game_question q =>
    { prev with
      currentQuestion := q
      timeRemaining := 20
      showHint := false
      error := none }
  | .game_hint => { prev with showHint := true, error := none }
  | .game_timer t => { prev with timeRemaining := t.getD 0, error := none }
  | .game_grading_result => prev
  | .game_grading_result_restore => prev
  | .game_ranking => prev

/-! ## Channel liveness monitor -/

/-- Modelled from the spec: the server side of the heartbeat is not among
the client sources under `src/` (the FastAPI server is absent); §4.1 states
"three missed pongs or any transport error force-closes the channel".  The
monitor counts consecutive unanswered pings, resets on a pong, and closes
the channel at three misses or on a transport error. -/
structure LivenessState where
  missed : Nat
  channelClosed : Bool
deriving DecidableEq, Repr

/-- Modelled from the spec: events seen by the liveness monitor. -/
inductive LiveEv where
  | pongReceived
  | pingUnanswered
  | transportError
deriving DecidableEq, Repr

/-- Modelled from the spec: one step of the liveness monitor. -/
def liveStep (st : LivenessState) (e : LiveEv) : LivenessState :=
  if st.channelClosed then st
  else
    match e with
    | .pongReceived => { st with missed := 0 }
    | .pingUnanswered =>
      let m := st.missed + 1
      { missed := m, channelClosed := 3 ≤ m }
    | .transportError => { st with channelClosed := true }

/-! ## Concrete states and data used by witnesses and counterexamples -/

/-- A message first seen over the live stream. -/
def liveMsg : Msg := { id := some 1, content := some "live" }

/-- The same identifier as delivered by the history snapshot, with the
content the server stored. -/
def histMsg : Msg := { id := some 1, content := some "hist" }

/-- The live wire event carrying `liveMsg`. -/
def liveMsgData : RawData := { type := "message", message := some liveMsg }

/-- A parsed `{"type": "ping"}` frame. -/
def pingData : RawData := { type := "ping" }

/-- A message with a fresh identifier. -/
def otherMsg : Msg := { id := some 2, content := some "more" }

/-- A parsed `{"type": "pong"}` frame. -/
def pongData : RawData := { type := "pong" }

/-- A state whose socket was just closed by the server: `ws.onclose` is
about to run, no reconnect is pending, no attempts used yet. -/
def closedSocketState : SocketState :=
  { initialState with ws := some .CLOSED, connected := true, openCount := 1 }

/-- A disconnected state after three failed reconnect attempts. -/
def threeAttemptsState : SocketState :=
  { initialState with reconnectAttempts := 3 }

/-- A disconnected state whose reconnect budget is spent. -/
def spentAttemptsState : SocketState :=
  { initialState with reconnectAttempts := 5, connected := true }

/-- A state holding an open socket. -/
def openSocketState : SocketState :=
  { initialState with ws := some .OPEN, connected := true, heartbeatOn := true }

/-- The trace of claim C4's counterexample: mount, history snapshot arrives,
the socket opens, the server drops it abnormally (code 1006), the backoff
timer fires and the new socket opens — a successful reconnect with no
second history fetch. -/
def reconnectTrace : List Ev :=
  [.mount, .fetchReply [], .wsOpen, .wsClose 1006, .reconnectFire, .wsOpen]

/-- The trace of claim C1's counterexample: the live stream delivers
`liveMsg` before the slow history fetch resolves with `histMsg`. -/
def raceTrace : List Ev :=
  [.mount, .wsOpen, .wsMsg liveMsgData, .fetchReply [histMsg]]

/-- Initial directory list for the C8 witness. -/
def roomA : Room :=
  { id := "r1", title := "alpha", visibility := .public, capacity := 5,
    member_count := 1 }

/-- A second copy of room `r1` as a `room_created` payload. -/
def roomA2 : Room :=
  { id := "r1", title := "alpha again", visibility := .public, capacity := 5,
    member_count := 2 }

/-- A room with a different identifier. -/
def roomB : Room :=
  { id := "r2", title := "beta", visibility := .passcode, capacity := 4,
    member_count := 1 }

/-! ## Auxiliary lemmas -/

theorem findById_append (l₁ l₂ : List Msg) (i : Option Nat) :
    findById (l₁ ++ l₂) i = (findById l₁ i).or (findById l₂ i) := by
  simp [findById, List.find?_append]

theorem hasId_iff_findById_isSome (l : List Msg) (i : Option Nat) :
    hasId l i = true ↔ (findById l i).isSome := by
  simp [hasId, findById, List.any_eq_true, List.find?_isSome]

theorem insertMsg_findById (acc : List Msg) (m : Msg) (i : Option Nat) :
    findById (insertMsg acc m) i = (findById acc i).or (findById [m] i) := by
  unfold insertMsg
  by_cases h : acc.any (fun x => x.id == m.id) = true
  · rw [if_pos h]
    cases hf : findById acc i with
    | some y => simp [Option.or]
    | none =>
      have hs : findById [m] i = none := by
        cases hmi : (m.id == i) with
        | false => simp [findById, List.find?, hmi]
        | true =>
          exfalso
          have hi : i = m.id := (eq_of_beq hmi).symm
          rw [hi] at hf
          have h' : hasId acc m.id = true := h
          have hsome := (hasId_iff_findById_isSome acc m.id).mp h'
          rw [hf] at hsome
          simp at hsome
      rw [hs, Option.or_none]
  · rw [if_neg h]
    exact findById_append acc [m] i

theorem foldl_insertMsg_findById (evs : List Msg) :
    ∀ (acc : List Msg) (i : Option Nat),
      findById (evs.foldl insertMsg acc) i = findById (acc ++ evs) i := by
  induction evs with
  | nil => intro acc i; simp
  | cons e evs ih =>
    intro acc i
    rw [List.foldl_cons, ih, findById_append, insertMsg_findById,
      findById_append, Option.or_assoc]
    congr 1
    cases he : (e.id == i) with
    | true => simp [findById, List.find?, he]
    | false => simp [findById, List.find?, he]

theorem uniqueKeys_append_singleton {α β : Type} (key : α → β) [BEq β]
    [LawfulBEq β] (acc : List α) (x : α)
    (h : uniqueKeys key acc = true)
    (hx : acc.any (fun y => key y == key x) = false) :
    uniqueKeys key (acc ++ [x]) = true := by
  induction acc with
  | nil => simp [uniqueKeys]
  | cons a acc ih =>
    rw [uniqueKeys, Bool.and_eq_true] at h
    rw [List.any_cons, Bool.or_eq_false_iff] at hx
    rw [List.cons_append, uniqueKeys, Bool.and_eq_true]
    refine ⟨?_, ih h.2 hx.2⟩
    have h1 := h.1
    rw [Bool.not_eq_true'] at h1
    rw [Bool.not_eq_true', List.any_append, Bool.or_eq_false_iff]
    refine ⟨h1, ?_⟩
    rw [List.any_cons, List.any_nil, Bool.or_false]
    have h2 : (key a == key x) = false := hx.1
    rw [beq_eq_false_iff_ne] at h2 ⊢
    exact fun hh => h2 hh.symm

theorem insertMsg_uniqueKeys (acc : List Msg) (m : Msg)
    (h : uniqueKeys Msg.id acc = true) :
    uniqueKeys Msg.id (insertMsg acc m) = true := by
  unfold insertMsg
  by_cases hm : acc.any (fun x => x.id == m.id) = true
  · rw [if_pos hm]; exact h
  · rw [if_neg hm]
    exact uniqueKeys_append_singleton Msg.id acc m h (Bool.of_not_eq_true hm)

theorem foldl_insertMsg_uniqueKeys (evs : List Msg) :
    ∀ acc : List Msg, uniqueKeys Msg.id acc = true →
      uniqueKeys Msg.id (evs.foldl insertMsg acc) = true := by
  induction evs with
  | nil => intro acc h; simpa using h
  | cons e evs ih =>
    intro acc h
    rw [List.foldl_cons]
    exact ih _ (insertMsg_uniqueKeys acc e h)

theorem uniqueKeys_filter {α β : Type} (key : α → β) [BEq β] [LawfulBEq β]
    (q : α → Bool) (l : List α) (h : uniqueKeys key l = true) :
    uniqueKeys key (l.filter q) = true := by
  induction l with
  | nil => simp [uniqueKeys]
  | cons a l ih =>
    rw [uniqueKeys, Bool.and_eq_true] at h
    by_cases hq : q a = true
    · rw [List.filter_cons_of_pos hq, uniqueKeys, Bool.and_eq_true]
      refine ⟨?_, ih h.2⟩
      rw [Bool.not_eq_true', List.any_filter]
      have h1 := h.1
      rw [Bool.not_eq_true'] at h1
      rw [Bool.eq_false_iff] at h1 ⊢
      intro hc
      apply h1
      rw [List.any_eq_true] at hc ⊢
      obtain ⟨x, hx, hpx⟩ := hc
      simp only [Bool.and_eq_true] at hpx
      exact ⟨x, hx, hpx.2⟩
    · rw [List.filter_cons_of_neg hq]
      exact ih h.2

theorem uniqueKeys_map_of_key_eq {α β : Type} (key : α → β) [BEq β]
    (f : α → α) (hf : ∀ a, key (f a) = key a) (l : List α) :
    uniqueKeys key (l.map f) = uniqueKeys key l := by
  induction l with
  | nil => simp
  | cons a l ih =>
    rw [List.map_cons, uniqueKeys, uniqueKeys, ih, List.any_map]
    have : ((fun y => key y == key (f a)) ∘ f) = fun y => key y == key a := by
      funext y
      simp [Function.comp, hf]
    rw [this]

theorem scheduleReconnect_othersLive (s : SocketState) :
    (scheduleReconnect s).othersLive = s.othersLive := by
  unfold scheduleReconnect
  split
  · rfl
  · split <;> rfl

theorem connectWebSocket_othersLive (s : SocketState) :
    (connectWebSocket s).othersLive = s.othersLive := by
  unfold connectWebSocket
  by_cases h : wsOpenOrConnecting s = true
  · rw [if_pos h]
  · rw [if_neg h, if_neg h]
    exact Nat.add_zero _

theorem onClose_othersLive (code : Nat) (s : SocketState) :
    (onClose code s).othersLive = s.othersLive := by
  unfold onClose
  dsimp only
  split
  · rw [scheduleReconnect_othersLive]
    split <;> rfl
  · rfl

theorem reconnectTimerFire_othersLive (s : SocketState) :
    (reconnectTimerFire s).othersLive = s.othersLive := by
  unfold reconnectTimerFire
  split
  · rfl
  · rw [connectWebSocket_othersLive]

theorem connectionTimeoutFire_othersLive (s : SocketState) :
    (connectionTimeoutFire s).othersLive = s.othersLive := by
  unfold connectionTimeoutFire
  split
  · rw [scheduleReconnect_othersLive]
  · rfl

theorem heartbeatTick_othersLive (s : SocketState) :
    (heartbeatTick s).othersLive = s.othersLive := by
  unfold heartbeatTick
  split
  · split <;> rfl
  · rfl

theorem step_othersLive_zero (s : SocketState) (e : Ev) (h : s.othersLive = 0) :
    (step s e).othersLive = 0 := by
  cases e with
  | mount => rw [step, connectWebSocket_othersLive]; exact h
  | fetchReply snapshot =>
    rw [step]
    split
    · exact h
    · exact h
  | wsOpen =>
    rw [step]
    split
    · exact h
    · exact h
  | wsClose code =>
    rw [step]
    split
    · exact h
    · rw [onClose_othersLive]; exact h
  | wsMsg d =>
    rw [step]
    split
    · exact h
    · exact h
  | reconnectFire => rw [step, reconnectTimerFire_othersLive]; exact h
  | connTimeoutFire => rw [step, connectionTimeoutFire_othersLive]; exact h
  | heartbeatFire => rw [step, heartbeatTick_othersLive]; exact h
  | unmount => rw [step, unmountCleanup]; exact h
  | otherSocketClosed =>
    rw [step]
    show s.othersLive - 1 = 0
    omega

theorem foldl_step_othersLive (evs : List Ev) :
    ∀ s : SocketState, s.othersLive = 0 → (evs.foldl step s).othersLive = 0 := by
  induction evs with
  | nil => intro s h; simpa using h
  | cons e evs ih =>
    intro s h
    rw [List.foldl_cons]
    exact ih _ (step_othersLive_zero s e h)

theorem run_othersLive (evs : List Ev) : (run evs).othersLive = 0 :=
  foldl_step_othersLive evs initialState rfl

theorem scheduleReconnect_fetchCount (s : SocketState) :
    (scheduleReconnect s).fetchCount = s.fetchCount := by
  unfold scheduleReconnect
  split
  · rfl
  · split <;> rfl

theorem connectWebSocket_fetchCount (s : SocketState) :
    (connectWebSocket s).fetchCount = s.fetchCount := by
  unfold connectWebSocket
  split <;> rfl

theorem onClose_fetchCount (code : Nat) (s : SocketState) :
    (onClose code s).fetchCount = s.fetchCount := by
  unfold onClose
  dsimp only
  split
  · rw [scheduleReconnect_fetchCount]
    split <;> rfl
  · rfl

theorem liveStep_three_missed (st : LivenessState) :
    (liveStep (liveStep (liveStep st .pingUnanswered) .pingUnanswered)
      .pingUnanswered).channelClosed = true := by
  by_cases h0 : st.channelClosed = true
  · simp [liveStep, h0]
  · have h0' : st.channelClosed = false := Bool.of_not_eq_true h0
    by_cases h1 : 3 ≤ st.missed + 1
    · simp [liveStep, h0', h1]
    · by_cases h2 : 3 ≤ st.missed + 2
      · simp [liveStep, h0', h1, h2]
      · have h3 : 3 ≤ st.missed + 3 := by omega
        simp [liveStep, h0', h1, h2, h3]

/-! ## The claims -/

/-- Claim C1, counterexample.  The claim covers "historical items and live
`message` events, in any order", asserting that an incoming item whose
identifier is already present leaves the collection unchanged with the
first-seen content retained.  The code, however, installs a history
snapshot by wholesale replacement (`fetchMessages` assigns
`data.reverse()` to the collection), so when the live stream delivers
identifier 1 with content `"live"` before the slow history fetch resolves
with identifier 1 and content `"hist"`, the incoming historical item finds
its identifier already present yet replaces the collection, and the
first-seen content is lost.  The trace `raceTrace` exhibits the race inside
the full event model. -/
theorem c1_history_replaces_counterexample :
    hasId [liveMsg] histMsg.id = true
    ∧ fetchMessagesOk [liveMsg] [histMsg] = [histMsg]
    ∧ fetchMessagesOk [liveMsg] [histMsg] ≠ [liveMsg]
    ∧ (run raceTrace).messages = [histMsg] := by
  refine ⟨by decide, by decide, by decide, by decide⟩

/-- Claim C1, amended: once a collection with unique identifiers (such as an
installed history snapshot) is in place, every sequence of incoming live
`message` items — in any order, with duplicates — yields a collection in
which each identifier occurs exactly once, the entry retrieved for an
identifier is the first-seen one across the initial collection and the
stream, and an incoming item whose identifier is already present leaves the
collection unchanged.  (The history fetch itself replaces the collection
wholesale instead of merging; see the counterexample.) -/
theorem c1_live_merge_idempotent (init evs : List Msg)
    (h : uniqueKeys Msg.id init = true) :
    uniqueKeys Msg.id (evs.foldl insertMsg init) = true
    ∧ (∀ i : Option Nat,
        findById (evs.foldl insertMsg init) i = findById (init ++ evs) i)
    ∧ (∀ m : Msg, hasId init m.id = true → insertMsg init m = init) :=
  ⟨foldl_insertMsg_uniqueKeys evs init h,
   fun i => foldl_insertMsg_findById evs init i,
   fun _ hm => by unfold hasId at hm; unfold insertMsg; rw [if_pos hm]⟩

/-- Witness for C1's amended theorem at a concrete input. -/
theorem c1_live_merge_idempotent_witness :
    uniqueKeys Msg.id [liveMsg] = true
    ∧ uniqueKeys Msg.id ([histMsg, otherMsg].foldl insertMsg [liveMsg]) = true
    ∧ findById ([histMsg, otherMsg].foldl insertMsg [liveMsg]) (some 1)
        = findById ([liveMsg] ++ [histMsg, otherMsg]) (some 1)
    ∧ hasId [liveMsg] histMsg.id = true
    ∧ insertMsg [liveMsg] histMsg = [liveMsg] :=
  ⟨by decide,
   (c1_live_merge_idempotent [liveMsg] [histMsg, otherMsg] (by decide)).1,
   (c1_live_merge_idempotent [liveMsg] [histMsg, otherMsg] (by decide)).2.1 (some 1),
   by decide,
   (c1_live_merge_idempotent [liveMsg] [histMsg, otherMsg] (by decide)).2.2
     histMsg (by decide)⟩

/-- Claim C2: the reconnect delay armed before attempt `n` (counting from 0)
is `min(2000 * 2 ^ n, 30000)` ms, delays are non-decreasing and never exceed
the 30 s ceiling, and once 5 attempts have been made `scheduleReconnect`
arms no further timer and surfaces the disconnected state
(`connected = false`). -/
theorem c2_backoff_bounds :
    maxReconnectAttempts = 5
    ∧ (∀ n : Nat, reconnectDelay n = min (2000 * 2 ^ n) 30000)
    ∧ (∀ m n : Nat, m ≤ n → reconnectDelay m ≤ reconnectDelay n)
    ∧ (∀ n : Nat, reconnectDelay n ≤ 30000)
    ∧ (∀ s : SocketState, wsOpenOrConnecting s = false →
        s.reconnectAttempts < maxReconnectAttempts →
        (scheduleReconnect s).reconnectTimeout
          = some (reconnectDelay s.reconnectAttempts))
    ∧ (∀ s : SocketState, wsOpenOrConnecting s = false →
        maxReconnectAttempts ≤ s.reconnectAttempts →
        (scheduleReconnect s).reconnectTimeout = none
        ∧ (scheduleReconnect s).connected = false) := by
  refine ⟨rfl, fun n => rfl, ?_, ?_, ?_, ?_⟩
  · intro m n hmn
    exact min_le_min
      (Nat.mul_le_mul_left _ (Nat.pow_le_pow_right (by norm_num) hmn)) le_rfl
  · intro n
    exact min_le_right _ _
  · intro s h1 h2
    unfold scheduleReconnect
    rw [if_neg (by simp [h1]), if_neg (Nat.not_le.mpr h2)]
  · intro s h1 h2
    unfold scheduleReconnect
    rw [if_neg (by simp [h1]), if_pos h2]
    exact ⟨rfl, rfl⟩

/-- Witness for C2 at concrete states: a disconnected state with 3 used
attempts gets the delay `reconnectDelay 3`; a state with 5 used attempts
gets no timer and a disconnected flag. -/
theorem c2_backoff_bounds_witness :
    reconnectDelay 1 ≤ reconnectDelay 4
    ∧ wsOpenOrConnecting threeAttemptsState = false
    ∧ threeAttemptsState.reconnectAttempts < maxReconnectAttempts
    ∧ (scheduleReconnect threeAttemptsState).reconnectTimeout
        = some (reconnectDelay threeAttemptsState.reconnectAttempts)
    ∧ wsOpenOrConnecting spentAttemptsState = false
    ∧ maxReconnectAttempts ≤ spentAttemptsState.reconnectAttempts
    ∧ (scheduleReconnect spentAttemptsState).reconnectTimeout = none
    ∧ (scheduleReconnect spentAttemptsState).connected = false :=
  ⟨c2_backoff_bounds.2.2.1 1 4 (by decide), by decide, by decide,
   c2_backoff_bounds.2.2.2.2.1 threeAttemptsState (by decide) (by decide),
   by decide, by decide,
   (c2_backoff_bounds.2.2.2.2.2 spentAttemptsState (by decide) (by decide)).1,
   (c2_backoff_bounds.2.2.2.2.2 spentAttemptsState (by decide) (by decide)).2⟩

/-- Claim C3, counterexample.  The claim equates "abnormal" with "not a
clean, caller-initiated close"; the caller's intentional closes use code
1000, so a close with code 1001 (going away — e.g. the server shutting
down) is not caller-initiated, yet `ws.onclose` schedules no reconnect for
it: the source reconnects only when the code is neither 1000 nor 1001. -/
theorem c3_going_away_counterexample :
    (1001 : Nat) ≠ 1000
    ∧ closedSocketState.reconnectTimeout = none
    ∧ (onClose 1001 closedSocketState).reconnectTimeout = none := by
  refine ⟨by decide, rfl, by decide⟩

/-- Claim C3, amended: a close whose code is neither 1000 nor 1001
schedules a reconnect (with the current backoff delay, while the attempt
budget lasts), and a close with code 1000 — the code used by the
caller-initiated unmount close — or 1001 schedules none. -/
theorem c3_close_code_reconnect (s : SocketState) (code : Nat)
    (hto : s.reconnectTimeout = none)
    (hatt : s.reconnectAttempts < maxReconnectAttempts) :
    ((code ≠ 1000 ∧ code ≠ 1001) →
      (onClose code s).reconnectTimeout
        = some (reconnectDelay s.reconnectAttempts))
    ∧ ((code = 1000 ∨ code = 1001) →
        (onClose code s).reconnectTimeout = none) := by
  constructor
  · intro hab
    unfold onClose
    dsimp only
    rw [if_pos hab]
    split
    · unfold scheduleReconnect
      rw [if_neg (by simp [wsOpenOrConnecting]), if_neg (Nat.not_le.mpr hatt)]
    · unfold scheduleReconnect
      rw [if_neg (by simp [wsOpenOrConnecting]), if_neg (Nat.not_le.mpr hatt)]
  · intro hcl
    unfold onClose
    dsimp only
    rw [if_neg (by rcases hcl with h | h <;> simp [h])]
    exact hto

/-- Witness for C3's amended theorem: from a freshly closed socket state,
code 1006 arms the backoff timer and code 1000 does not. -/
theorem c3_close_code_reconnect_witness :
    closedSocketState.reconnectTimeout = none
    ∧ closedSocketState.reconnectAttempts < maxReconnectAttempts
    ∧ (onClose 1006 closedSocketState).reconnectTimeout
        = some (reconnectDelay closedSocketState.reconnectAttempts)
    ∧ (onClose 1000 closedSocketState).reconnectTimeout = none :=
  ⟨rfl, by decide,
   (c3_close_code_reconnect closedSocketState 1006 rfl (by decide)).1 (by decide),
   (c3_close_code_reconnect closedSocketState 1000 rfl (by decide)).2 (Or.inl rfl)⟩

/-- Claim C4, counterexample.  The claim says every successful reconnect
repeats the attach algorithm from step 1, re-fetching the history snapshot.
In the code the reconnect timer body only increments the attempt counter
and calls `connectWebSocket`; `fetchMessages` runs only from the mount
effect.  In the trace `reconnectTrace` the channel opens twice (initial
attach plus one successful reconnect after an abnormal close) while
`fetchMessages` was invoked exactly once — no re-fetch accompanied the
reconnect. -/
theorem c4_reconnect_no_refetch_counterexample :
    (run reconnectTrace).openCount = 2
    ∧ (run reconnectTrace).fetchCount = 1 := by
  refine ⟨by decide, by decide⟩

/-- Claim C4, amended: reconnection re-opens the Event Channel only.  None
of the reconnect-path operations (the timer body, `connectWebSocket`,
`ws.onclose`, `ws.onopen`) invokes `fetchMessages`; the snapshot is fetched
(once) by the mount effect alone, so events missed while disconnected are
not recovered by a reconnect. -/
theorem c4_reconnect_does_not_refetch (s : SocketState) :
    (reconnectTimerFire s).fetchCount = s.fetchCount
    ∧ (connectWebSocket s).fetchCount = s.fetchCount
    ∧ (∀ code : Nat, (onClose code s).fetchCount = s.fetchCount)
    ∧ (onOpen s).fetchCount = s.fetchCount
    ∧ (step s .mount).fetchCount = s.fetchCount + 1 := by
  refine ⟨?_, connectWebSocket_fetchCount s, fun code => onClose_fetchCount code s, rfl, ?_⟩
  · unfold reconnectTimerFire
    split
    · rfl
    · rw [connectWebSocket_fetchCount]
  · rw [step, connectWebSocket_fetchCount]

/-- Claim C5: the client sends a heartbeat ping at the fixed 30 s interval
while (and only while) the held socket is open, and — in the liveness
monitor modelled from the spec, since the server is not among the client
sources — three consecutive unanswered pings, or any transport error,
force-close the channel. -/
theorem c5_heartbeat_liveness :
    heartbeatIntervalMs = 30000
    ∧ (∀ s : SocketState, s.heartbeatOn = true → s.ws = some .OPEN →
        (heartbeatTick s).pingsSent = s.pingsSent + 1)
    ∧ (∀ s : SocketState, s.ws ≠ some .OPEN →
        (heartbeatTick s).pingsSent = s.pingsSent)
    ∧ (∀ st : LivenessState,
        (liveStep (liveStep (liveStep st .pingUnanswered) .pingUnanswered)
          .pingUnanswered).channelClosed = true)
    ∧ (∀ st : LivenessState, (liveStep st .transportError).channelClosed = true) := by
  refine ⟨rfl, ?_, ?_, liveStep_three_missed, ?_⟩
  · intro s h1 h2
    unfold heartbeatTick
    rw [if_pos h1, if_pos h2]
  · intro s h
    unfold heartbeatTick
    by_cases hb : s.heartbeatOn = true
    · rw [if_pos hb, if_neg h]
    · rw [if_neg hb]
  · intro st
    unfold liveStep
    by_cases hc : st.channelClosed = true
    · rw [if_pos hc]; exact hc
    · rw [if_neg hc]

/-- Witness for C5 at concrete states: one tick on an open socket sends a
ping; a tick after the socket is gone sends none. -/
theorem c5_heartbeat_liveness_witness :
    openSocketState.heartbeatOn = true
    ∧ openSocketState.ws = some .OPEN
    ∧ (heartbeatTick openSocketState).pingsSent = openSocketState.pingsSent + 1
    ∧ closedSocketState.ws ≠ some .OPEN
    ∧ (heartbeatTick closedSocketState).pingsSent = closedSocketState.pingsSent :=
  ⟨rfl, rfl,
   c5_heartbeat_liveness.2.1 openSocketState rfl rfl,
   by decide,
   c5_heartbeat_liveness.2.2.1 closedSocketState (by decide)⟩

/-- Claim C6, counterexample.  An incoming `{"type": "ping"}` frame matches
none of the `pong`, `game_`, `room_updated` or `message` branches of
`ws.onmessage`, so it falls through to the backward-compatibility branch
and is inserted into the local message collection as an id-less message —
it is surfaced to application state rather than consumed by the liveness
layer. -/
theorem c6_ping_inserted_counterexample :
    (wsOnMessage [] pingData).1 = [{ id := none, content := none }]
    ∧ (wsOnMessage [] pingData).1 ≠ [] := by
  refine ⟨by decide, by decide⟩

/-- Claim C6, amended: an incoming `pong` is consumed by the liveness layer
only — the collection is unchanged and the game-event handler is not
invoked — while an incoming `ping` does not invoke the game-event handler
but falls through to the legacy branch and is inserted into the collection
(keyed by its absent id, so at most one such entry survives). -/
theorem c6_pong_liveness_only (msgs : List Msg) (d : RawData) :
    (d.type = "pong" → wsOnMessage msgs d = (msgs, false))
    ∧ (d.type = "ping" →
        wsOnMessage msgs d
          = (insertMsg msgs { id := d.id, content := d.content }, false)) := by
  constructor
  · intro h
    unfold wsOnMessage
    rw [if_pos h]
  · intro h
    unfold wsOnMessage
    rw [if_neg (by rw [h]; decide), if_neg (by rw [h]; decide),
      if_neg (by rw [h]; decide), if_neg (by rw [h]; decide)]

/-- Witness for C6's amended theorem on concrete frames. -/
theorem c6_pong_liveness_only_witness :
    pongData.type = "pong"
    ∧ wsOnMessage [liveMsg] pongData = ([liveMsg], false)
    ∧ pingData.type = "ping"
    ∧ wsOnMessage [] pingData
        = (insertMsg [] { id := pingData.id, content := pingData.content }, false) :=
  ⟨rfl,
   (c6_pong_liveness_only [liveMsg] pongData).1 rfl,
   rfl,
   (c6_pong_liveness_only [] pingData).2 rfl⟩

/-- Claim C7: while the held socket is connecting or open, a second attach
attempt (`connectWebSocket`) and a reconnect request (`scheduleReconnect`)
are suppressed, and along every event trace of the hook the number of
channels of this client in the connecting/open state never exceeds one. -/
theorem c7_single_channel :
    (∀ s : SocketState, wsOpenOrConnecting s = true → connectWebSocket s = s)
    ∧ (∀ s : SocketState, wsOpenOrConnecting s = true → scheduleReconnect s = s)
    ∧ (∀ evs : List Ev, liveChannelCount (run evs) ≤ 1) := by
  refine ⟨?_, ?_, ?_⟩
  · intro s h
    unfold connectWebSocket
    rw [if_pos h]
  · intro s h
    unfold scheduleReconnect
    rw [if_pos h]
  · intro evs
    unfold liveChannelCount
    rw [run_othersLive evs]
    cases wsOpenOrConnecting (run evs) <;> simp

/-- Witness for C7: a second attach attempt on an open socket is a no-op,
and a concrete mount-and-open trace holds exactly one live channel. -/
theorem c7_single_channel_witness :
    wsOpenOrConnecting openSocketState = true
    ∧ connectWebSocket openSocketState = openSocketState
    ∧ scheduleReconnect openSocketState = openSocketState
    ∧ liveChannelCount (run [Ev.mount, Ev.wsOpen]) ≤ 1 :=
  ⟨rfl,
   c7_single_channel.1 openSocketState rfl,
   c7_single_channel.2.1 openSocketState rfl,
   c7_single_channel.2.2 [Ev.mount, Ev.wsOpen]⟩

/-- Claim C8: the directory handler de-duplicates by room id — a
`room_created` event whose id is already present leaves the list unchanged;
`room_deleted` removes exactly the entries with the given id and is
idempotent; and every event preserves uniqueness of room ids, so a list
whose ids are unique never acquires two entries with the same id. -/
theorem c8_rooms_dedup (rooms : List Room) (ev : RoomsEvent) :
    (∀ room : Room, ev = .room_created room →
      rooms.any (fun r => r.id == room.id) = true →
      handleRoomsEvent rooms ev = rooms)
    ∧ (∀ i : String, ev = .room_deleted i →
        (∀ r : Room, r ∈ handleRoomsEvent rooms ev ↔ r ∈ rooms ∧ r.id ≠ i)
        ∧ handleRoomsEvent (handleRoomsEvent rooms ev) ev
            = handleRoomsEvent rooms ev)
    ∧ (uniqueKeys Room.id rooms = true →
        uniqueKeys Room.id (handleRoomsEvent rooms ev) = true) := by
  refine ⟨?_, ?_, ?_⟩
  · intro room he hdup
    subst he
    simp [handleRoomsEvent, hdup]
  · intro i he
    subst he
    simp only [handleRoomsEvent]
    constructor
    · intro r
      rw [List.mem_filter, bne_iff_ne]
    · rw [List.filter_filter]
      simp
  · intro h
    cases ev with
    | room_created room =>
      simp only [handleRoomsEvent]
      split
      · by_cases hdup : rooms.any (fun r => r.id == room.id) = true
        · rw [if_pos hdup]; exact h
        · rw [if_neg hdup]
          have hdup' := Bool.of_not_eq_true hdup
          rw [uniqueKeys, hdup', Bool.not_false, Bool.true_and]
          exact h
      · exact h
    | room_updated i mc =>
      simp only [handleRoomsEvent]
      rw [uniqueKeys_map_of_key_eq Room.id _ (fun r => by split <;> rfl)]
      exact h
    | room_deleted i =>
      simp only [handleRoomsEvent]
      exact uniqueKeys_filter Room.id _ rooms h

/-- Witness for C8 on a concrete directory. -/
theorem c8_rooms_dedup_witness :
    [roomA, roomB].any (fun r => r.id == roomA2.id) = true
    ∧ handleRoomsEvent [roomA, roomB] (.room_created roomA2) = [roomA, roomB]
    ∧ (roomA ∈ handleRoomsEvent [roomA, roomB] (.room_deleted "r2")
        ↔ roomA ∈ [roomA, roomB] ∧ roomA.id ≠ "r2")
    ∧ handleRoomsEvent (handleRoomsEvent [roomA, roomB] (.room_deleted "r2"))
        (.room_deleted "r2")
        = handleRoomsEvent [roomA, roomB] (.room_deleted "r2")
    ∧ uniqueKeys Room.id (handleRoomsEvent [roomA, roomB] (.room_created roomA2)) = true :=
  ⟨by decide,
   (c8_rooms_dedup [roomA, roomB] (.room_created roomA2)).1 roomA2 rfl (by decide),
   ((c8_rooms_dedup [roomA, roomB] (.room_deleted "r2")).2.1 "r2" rfl).1 roomA,
   ((c8_rooms_dedup [roomA, roomB] (.room_deleted "r2")).2.1 "r2" rfl).2,
   (c8_rooms_dedup [roomA, roomB] (.room_created roomA2)).2.2 (by decide)⟩

/-- Claim C9: every received `game_question` event installs the question
and resets the remaining-time counter to the full 20 s per-question budget
(clearing the hint), and the countdown then follows the subsequently
received `game_timer` events (`data.timeRemaining || 0`). -/
theorem c9_question_budget (prev : GameState) (q : Option Question) :
    (updateGameStateFromWebSocket (.game_question q) prev).timeRemaining = 20
    ∧ (updateGameStateFromWebSocket (.game_question q) prev).currentQuestion = q
    ∧ (updateGameStateFromWebSocket (.game_question q) prev).showHint = false
    ∧ (∀ t : Option Nat,
        (updateGameStateFromWebSocket (.game_timer t)
          (updateGameStateFromWebSocket (.game_question q) prev)).timeRemaining
          = t.getD 0) :=
  ⟨rfl, rfl, rfl, fun _ => rfl⟩

/-- Claim C10: `sendMessage` is atomic on failure — a rejected or failed
request returns `none` and leaves the collection unchanged; an accepted
send returns the server's message and inserts it only when its identifier
is not already present. -/
theorem c10_send_atomic (roomId : Option String) (msgs : List Msg)
    (content : String) (resp : Except Unit Msg) :
    (∀ e : Unit, resp = .error e → sendMessage roomId msgs content resp = (none, msgs))
    ∧ (∀ sent : Msg, resp = .ok sent → roomId ≠ none → trimString content ≠ "" →
        sendMessage roomId msgs content resp = (some sent, insertMsg msgs sent)
        ∧ (hasId msgs sent.id = true →
            (sendMessage roomId msgs content resp).2 = msgs)) := by
  constructor
  · intro e he
    subst he
    unfold sendMessage
    split
    · rfl
    · rfl
  · intro sent hs hroom hcontent
    subst hs
    have hkey : sendMessage roomId msgs content (Except.ok sent)
        = (some sent, insertMsg msgs sent) := by
      unfold sendMessage
      rw [if_neg ?hneg]
      case hneg =>
        intro hor
        cases hor with
        | inl hh => exact hroom hh
        | inr hh => exact hcontent hh
    refine ⟨hkey, ?_⟩
    intro hdup
    rw [hkey]
    unfold hasId at hdup
    unfold insertMsg
    rw [if_pos hdup]

/-- Witness for C10 on concrete inputs: an error leaves the collection
unchanged; an accepted send inserts the fresh message; an accepted send
whose id is already present leaves the collection unchanged. -/
theorem c10_send_atomic_witness :
    sendMessage (some "room1") [liveMsg] "hello" (Except.error ()) = (none, [liveMsg])
    ∧ sendMessage (some "room1") [] "hello" (Except.ok liveMsg) = (some liveMsg, [liveMsg])
    ∧ hasId [liveMsg] histMsg.id = true
    ∧ (sendMessage (some "room1") [liveMsg] "hello" (Except.ok histMsg)).2 = [liveMsg] :=
  ⟨(c10_send_atomic (some "room1") [liveMsg] "hello" (Except.error ())).1 () rfl,
   ((c10_send_atomic (some "room1") [] "hello" (Except.ok liveMsg)).2 liveMsg rfl
     (by decide) (by decide)).1,
   by decide,
   ((c10_send_atomic (some "room1") [liveMsg] "hello" (Except.ok histMsg)).2 histMsg rfl
     (by decide) (by decide)).2 (by decide)⟩
